import Mathlib

/-!
Shallow embedding of the katana task-orchestration engine and its plugins
(src/plugins/Plugin.py, Docker.py, ReverseProxy.py, GetUrl.py,
DesktopIntegration.py, src/provisioners/DockerProvisioner.py).

Python dictionaries of task parameters are modelled as association lists of
`Value`s; external collaborators (the docker daemon, the filesystem, the
desktop environment, the network) are modelled as explicit state threaded
through each plugin method, together with a trace of the external calls the
method performs.
-/

/-- A Python value as it appears in a task's parameters mapping:
strings, integers, booleans and nested mappings. -/
inductive Value where
  | str (s : String)
  | int (n : Nat)
  | bool (b : Bool)
  | dict (entries : List (String × Value))

/-- A parameters mapping: association list with first-match lookup
(Python dict keys are unique, so first-match agrees with dict lookup). -/
abbrev Params := List (String × Value)

/-- Model of `params.get(key)` lookup. -/
def Params.lookup : Params → String → Option Value
  | [], _ => none
  | (k, v) :: rest, key => if k = key then some v else Params.lookup rest key

/-- Model of `key in params.keys()`. -/
def Params.hasKey (p : Params) (key : String) : Bool :=
  (Params.lookup p key).isSome

/-- Python truthiness of a `Value` (`if not x`). -/
def Value.truthy : Value → Bool
  | .str s => !s.isEmpty
  | .int n => n != 0
  | .bool b => b
  | .dict d => !d.isEmpty

/-- Modelled from the spec: the `katanaerrors` module is not under src/; its
two error classes and their constructor arguments are taken from the spec's
error taxonomy (missing-required-parameter names the key and the plugin,
critical-function-failure carries the plugin name and a message) and from
the call sites in src/. -/
inductive KatanaError where
  | missingRequiredParam (key : String) (plugin : String)
  | criticalFunctionFailure (plugin : String) (msg : String)
deriving DecidableEq, Repr

/-- A runtime failure of a plugin invocation: either one of the katana error
classes, or a Python dynamic type error (e.g. dereferencing `None`). -/
inductive PyError where
  | katana (e : KatanaError)
  | typeError (msg : String)
deriving DecidableEq, Repr

/-- Model of `Plugin._validate_params` (src/plugins/Plugin.py lines 8-11): iterate the
required keys in order; for the first key such that `params is None` or the
key is not among the mapping's keys, raise `MissingRequiredParam(key,
plugin_name)`. -/
def Plugin.validate_params (params : Option Params) (required_params : List String)
    (plugin_name : String) : Except KatanaError Unit :=
  match required_params with
  | [] => .ok ()
  | key :: rest =>
    match params with
    | none => .error (.missingRequiredParam key plugin_name)
    | some p =>
      if p.hasKey key then Plugin.validate_params (some p) rest plugin_name
      else .error (.missingRequiredParam key plugin_name)

/-- Extract a string value (a parameter used where Python expects `str`). -/
def getStr : Option Value → Except PyError String
  | some (.str s) => .ok s
  | _ => .error (.typeError "expected str")

/-- Extract a dict value (a parameter used where Python expects `dict`,
e.g. `params.get('ports').keys()`). -/
def getDict : Option Value → Except PyError (List (String × Value))
  | some (.dict d) => .ok d
  | _ => .error (.typeError "expected dict")

/-! ## Docker plugin (src/plugins/Docker.py)

The docker daemon is an external collaborator; its observable state is the
set of containers (name and status) and the names of locally available
images.  Each method returns its `(changed, message)` result (or raises),
the daemon state after the call, and the trace of calls made to the daemon.
`client.containers.list(filters={'name': n}, all=True)` is modelled as
filtering the containers whose name matches. -/

structure Container where
  name : String
  status : String
deriving DecidableEq, Repr

structure DockerState where
  containers : List Container
  images : List String
deriving DecidableEq, Repr

/-- A call made to the docker daemon.  `listContainers` and `listImages` are
read-only queries; the others mutate daemon state. -/
inductive DockerCall where
  | listContainers (nameFilter : String)
  | listImages (name : String)
  | pullImage (name : String)
  | buildImage (path : String) (tag : String)
  | createContainer (image : String) (name : String) (ports : List (String × (String × Value)))
  | getLogs (name : String)
  | removeContainer (name : String)
  | pruneImages
  | startContainer (name : String)
  | stopContainer (name : String)

/-- Whether a docker daemon call mutates external state (everything except
the two list queries). -/
def DockerCall.mutating : DockerCall → Bool
  | .listContainers _ => false
  | .listImages _ => false
  | _ => true

structure DockerOutcome where
  result : Except PyError (Bool × Option String)
  state : DockerState
  calls : List DockerCall

/-- Remove the first container with the given name
(`container_list[0].remove(v=True)`). -/
def DockerState.removeFirstNamed : List Container → String → List Container
  | [], _ => []
  | c :: rest, n => if c.name == n then rest else c :: DockerState.removeFirstNamed rest n

/-- Set the status of the first container with the given name. -/
def DockerState.setStatusFirstNamed : List Container → String → String → List Container
  | [], _, _ => []
  | c :: rest, n, st =>
    if c.name == n then { c with status := st } :: rest
    else c :: DockerState.setStatusFirstNamed rest n st

/-- Model of `Docker.install` (src/plugins/Docker.py lines 12-41): validate
`['name','image']`; list containers matching the name; build the port
mappings `{container_port: ('127.0.0.1', host_port)}` from `params['ports']`;
if a matching container exists return `(False, "...already installed.")`;
otherwise list local images matching `params['image']` and, only when none
is found, pull the image (or build it locally when `path` is given) and
create the container; in either case return `(True, None)`.
`client.images.prune()` is not called here.  Note that when the image is
already available locally the container-creation branch is skipped entirely
(lines 26-40 guard both the pull/build and the create). -/
def Docker.install (params? : Option Params) (s : DockerState) : DockerOutcome :=
  match Plugin.validate_params params? ["name", "image"] "docker" with
  | .error e => ⟨.error (.katana e), s, []⟩
  | .ok _ =>
    match params? with
    | none => ⟨.error (.typeError "NoneType has no attribute get"), s, []⟩
    | some params =>
      match getStr (params.lookup "name") with
      | .error e => ⟨.error e, s, []⟩
      | .ok name =>
        let container_list := s.containers.filter (fun c => c.name == name)
        let listCall := DockerCall.listContainers name
        match getDict (params.lookup "ports") with
        | .error e => ⟨.error e, s, [listCall]⟩
        | .ok ports =>
          let port_mappings := ports.map (fun kv => (kv.1, ("127.0.0.1", kv.2)))
          if container_list.length > 0 then
            ⟨.ok (false, some ("A container named '" ++ name ++ "' is already installed.")),
              s, [listCall]⟩
          else
            match getStr (params.lookup "image") with
            | .error e => ⟨.error e, s, [listCall]⟩
            | .ok image =>
              let images := s.images.filter (fun i => i == image)
              if images.length == 0 then
                match params.lookup "path" with
                | none =>
                  let image_id := image
                  ⟨.ok (true, none),
                    { containers := s.containers ++ [⟨name, "created"⟩],
                      images := s.images ++ [image] },
                    [listCall, .listImages image, .pullImage image,
                      .createContainer image_id name port_mappings, .getLogs name]⟩
                | some pathv =>
                  match getStr (some pathv) with
                  | .error e => ⟨.error e, s, [listCall, .listImages image]⟩
                  | .ok path =>
                    let image_id := name ++ ":local"
                    ⟨.ok (true, none),
                      { containers := s.containers ++ [⟨name, "created"⟩],
                        images := s.images ++ [image_id] },
                      [listCall, .listImages image, .buildImage path image_id,
                        .createContainer image_id name port_mappings, .getLogs name]⟩
              else
                ⟨.ok (true, none), s, [listCall, .listImages image]⟩

/-- Model of `Docker.remove` (src/plugins/Docker.py lines 43-56): validate `['name']`;
list matching containers; none found is a no-op `(False, message)`; a running
first match raises `CriticalFunctionFailure('docker', 'Cannot remove a
running container.')`; otherwise remove it (and prune images, whose effect on
unused image layers is the daemon's and is outside this model) and return
`(True, message)`.  The source's success message lacks a closing quote. -/
def Docker.remove (params? : Option Params) (s : DockerState) : DockerOutcome :=
  match Plugin.validate_params params? ["name"] "docker" with
  | .error e => ⟨.error (.katana e), s, []⟩
  | .ok _ =>
    match params? with
    | none => ⟨.error (.typeError "NoneType has no attribute get"), s, []⟩
    | some params =>
      match getStr (params.lookup "name") with
      | .error e => ⟨.error e, s, []⟩
      | .ok name =>
        let listCall := DockerCall.listContainers name
        match s.containers.filter (fun c => c.name == name) with
        | [] =>
          ⟨.ok (false, some ("No container named '" ++ name ++
            "' was found. It will need to be installed before you can remove it.")),
            s, [listCall]⟩
        | c :: _ =>
          if c.status == "running" then
            ⟨.error (.katana (.criticalFunctionFailure "docker"
              "Cannot remove a running container.")), s, [listCall]⟩
          else
            ⟨.ok (true, some ("Container removed: '" ++ name)),
              { s with containers := DockerState.removeFirstNamed s.containers name },
              [listCall, .removeContainer name, .pruneImages]⟩

/-- Model of `Docker.start` (src/plugins/Docker.py lines 58-70): validate `['name']`;
no matching container is a no-op `(False, message)`; an already-running first
match is a no-op `(False, message)`; otherwise start it and return
`(True, None)`. -/
def Docker.start (params? : Option Params) (s : DockerState) : DockerOutcome :=
  match Plugin.validate_params params? ["name"] "docker" with
  | .error e => ⟨.error (.katana e), s, []⟩
  | .ok _ =>
    match params? with
    | none => ⟨.error (.typeError "NoneType has no attribute get"), s, []⟩
    | some params =>
      match getStr (params.lookup "name") with
      | .error e => ⟨.error e, s, []⟩
      | .ok name =>
        let listCall := DockerCall.listContainers name
        match s.containers.filter (fun c => c.name == name) with
        | [] =>
          ⟨.ok (false, some ("No container named '" ++ name ++
            "' was found. It will need to be installed before you can start it.")),
            s, [listCall]⟩
        | c :: _ =>
          if c.status == "running" then
            ⟨.ok (false, some ("The '" ++ name ++ "' container is already running.")),
              s, [listCall]⟩
          else
            ⟨.ok (true, none),
              { s with containers := DockerState.setStatusFirstNamed s.containers name "running" },
              [listCall, .startContainer name]⟩

/-- Model of `Docker.stop` (src/plugins/Docker.py lines 72-84): validate `['name']`;
no matching container is a no-op `(False, message)`; a first match whose
status is not `running` is a no-op `(False, message)`; otherwise stop it and
return `(True, None)`. -/
def Docker.stop (params? : Option Params) (s : DockerState) : DockerOutcome :=
  match Plugin.validate_params params? ["name"] "docker" with
  | .error e => ⟨.error (.katana e), s, []⟩
  | .ok _ =>
    match params? with
    | none => ⟨.error (.typeError "NoneType has no attribute get"), s, []⟩
    | some params =>
      match getStr (params.lookup "name") with
      | .error e => ⟨.error e, s, []⟩
      | .ok name =>
        let listCall := DockerCall.listContainers name
        match s.containers.filter (fun c => c.name == name) with
        | [] =>
          ⟨.ok (false, some ("No container named '" ++ name ++
            "' was found. It will need to be installed before you can stop it.")),
            s, [listCall]⟩
        | c :: _ =>
          if c.status != "running" then
            ⟨.ok (false, some ("The '" ++ name ++ "' container is not running.")),
              s, [listCall]⟩
          else
            ⟨.ok (true, none),
              { s with containers := DockerState.setStatusFirstNamed s.containers name "exited" },
              [listCall, .stopContainer name]⟩

example :
    (Docker.install (some [("name", .str "demo-app"), ("image", .str "demo:latest"),
      ("ports", .dict [])]) ⟨[], ["demo:latest"]⟩).result = .ok (true, none) := rfl

example :
    (Docker.remove (some [("name", .str "a")]) ⟨[⟨"a", "running"⟩], []⟩).result
      = .error (.katana (.criticalFunctionFailure "docker" "Cannot remove a running container.")) := rfl

/-! ## Filesystem model

Plugins touch the filesystem through `os.path.exists`, `open(...,'w')` /
`writelines` / `write_text`, and `Path.read_text`.  The observable state is
the mapping from paths to contents. -/

structure FileSystem where
  files : List (String × String)
deriving DecidableEq, Repr

def FileSystem.containsPath (fs : FileSystem) (p : String) : Bool :=
  fs.files.any (fun f => f.1 == p)

def FileSystem.read (fs : FileSystem) (p : String) : Option String :=
  (fs.files.find? (fun f => f.1 == p)).map (·.2)

def FileSystem.writeEntries : List (String × String) → String → String → List (String × String)
  | [], p, c => [(p, c)]
  | f :: rest, p, c =>
    if f.1 == p then (p, c) :: rest else f :: FileSystem.writeEntries rest p c

/-- Overwrite (or create) the file at `p` with content `c`. -/
def FileSystem.write (fs : FileSystem) (p : String) (c : String) : FileSystem :=
  ⟨FileSystem.writeEntries fs.files p c⟩

/-! ## ReverseProxy plugin (src/plugins/ReverseProxy.py)

The openssl commands are external collaborators run through
`Plugin._run_command`; their effect on the certificate files belongs to the
collaborator and is recorded only as a call in the trace.  The `.ext` file
and the nginx config are written directly by the plugin. -/

inductive SysCall where
  | runCommand (cmd : String) (cwd : Option String)
  | writeFile (path : String)
  | chmod (path : String) (mode : Nat)
deriving DecidableEq, Repr

structure FsOutcome where
  result : Except PyError (Bool × Option String)
  state : FileSystem
  calls : List SysCall

/-- The `.ext` file contents written by `ReverseProxy.install`
(src/plugins/ReverseProxy.py lines 38-45). -/
def ReverseProxy.ext_lines (hostname : String) : List String :=
  [ "authorityKeyIdentifier = keyid, issuer\n",
    "basicConstraints = CA:FALSE\n",
    "keyUsage = digitalSignature, nonRepudiation, keyEncipherment, dataEncipherment\n",
    "subjectAltName = @alt_names\n\n",
    "[alt_names]\n",
    "DNS.1 = " ++ hostname ++ "\n" ]

/-- The nginx config lines written by `ReverseProxy.install`
(src/plugins/ReverseProxy.py lines 52-67). -/
def ReverseProxy.nginx_conf_lines (hostname proxy_pass : String) : List String :=
  [ "server \x7b\n",
    "  listen 80;\n",
    "  server_name " ++ hostname ++ ";\n",
    "  return 301 https://" ++ hostname ++ ":8443$request_uri;\n",
    "\x7d\n",
    "server \x7b\n",
    "  listen 8443 ssl;\n",
    "  server_name " ++ hostname ++ ";\n",
    "  location / \x7b\n",
    "    proxy_pass " ++ proxy_pass ++ ";\n",
    "  \x7d\n",
    "  ssl_certificate /etc/samurai.d/certs/" ++ hostname ++ ".crt;\n",
    "  ssl_certificate_key /etc/samurai.d/certs/" ++ hostname ++ ".key;\n",
    "\x7d\n" ]

/-- Model of `ReverseProxy.install` (src/plugins/ReverseProxy.py lines 24-74):
validate `['hostname','proxy_pass']`; check whether the four certificate
files `<base>.key/.csr/.crt/.ext` all exist; if any is missing, run the two
openssl commands and write the `.ext` file; then unconditionally write the
nginx config for the hostname, chmod it to 644 (decimal, as in the source),
and return `(True, None)`. -/
def ReverseProxy.install (params? : Option Params) (fs : FileSystem) : FsOutcome :=
  match Plugin.validate_params params? ["hostname", "proxy_pass"] "reverseproxy" with
  | .error e => ⟨.error (.katana e), fs, []⟩
  | .ok _ =>
    match params? with
    | none => ⟨.error (.typeError "NoneType has no attribute get"), fs, []⟩
    | some params =>
      match getStr (params.lookup "hostname"), getStr (params.lookup "proxy_pass") with
      | .ok hostname, .ok proxy_pass =>
        let base_path := "/etc/samurai.d/certs/" ++ hostname
        let files_in_place :=
          ["key", "csr", "crt", "ext"].all
            (fun suffix => fs.containsPath (base_path ++ "." ++ suffix))
        let ext_path := "/etc/samurai.d/certs/" ++ hostname ++ ".ext"
        let conf_path := "/etc/nginx/conf.d/" ++ hostname ++ ".conf"
        let certStep : FileSystem × List SysCall :=
          if !files_in_place then
            (FileSystem.write fs ext_path (String.join (ReverseProxy.ext_lines hostname)),
              [ SysCall.runCommand
                  ("openssl req -new -newkey rsa:4096 -nodes -keyout " ++ hostname ++
                    ".key -out " ++ hostname ++
                    ".csr -subj \"/C=US/ST=Hacking/L=Springfield/O=SamuraiWTF/CN=" ++
                    hostname ++ "\"") (some "/etc/samurai.d/certs/"),
                SysCall.writeFile ext_path,
                SysCall.runCommand
                  ("openssl x509 -req -in " ++ hostname ++
                    ".csr -CA rootCACert.pem -CAkey rootCAKey.pem -CAcreateserial -out " ++
                    hostname ++ ".crt -days 365-sha256 -extfile " ++ hostname ++ ".ext")
                  (some "/etc/samurai.d/certs/") ])
          else (fs, [])
        let fs2 := FileSystem.write certStep.1 conf_path
          (String.join (ReverseProxy.nginx_conf_lines hostname proxy_pass))
        ⟨.ok (true, none), fs2,
          certStep.2 ++ [SysCall.writeFile conf_path, SysCall.chmod conf_path 644]⟩
      | .error e, _ => ⟨.error e, fs, []⟩
      | _, .error e => ⟨.error e, fs, []⟩

example :
    (ReverseProxy.install (some [("hostname", .str "h"), ("proxy_pass", .str "p")])
      ⟨[("/etc/samurai.d/certs/h.key", ""), ("/etc/samurai.d/certs/h.csr", ""),
        ("/etc/samurai.d/certs/h.crt", ""), ("/etc/samurai.d/certs/h.ext", "x")]⟩).result
      = .ok (true, none) := rfl

/-! ## GetUrl plugin (src/plugins/GetUrl.py)

The network is an external collaborator: `_get_link_from_page`
(src/plugins/GetUrl.py lines 10-40) scrapes HTTP responses with the regex
engine, and either resolves a download URL or raises
`CriticalFunctionFailure('get_url', ...)`; it is modelled as an oracle with
exactly that result type.  The `Unarchive` plugin that `any` delegates to
for `.tgz`/`.tar.gz` URLs is not under src/ and is likewise an oracle. -/

inductive NetCall where
  | fetchPage (url : String) (pattern : String)
  | download (url : String)
  | writeDest (path : String)
  | unarchive (url : String) (dest : String)
deriving DecidableEq, Repr

structure GetUrlEnv where
  /-- Result of `_get_link_from_page(url, link_pattern)`: the resolved link,
  or the `CriticalFunctionFailure` it raises when no link matches. -/
  linkFromPage : String → String → Except KatanaError String
  /-- Content streamed by `requests.get(url, stream=True)`. -/
  body : String → String
  /-- Result of delegating to `Unarchive().any({'url':…, 'dest':…})`
  (plugin not under src/). -/
  unarchiveResult : String → String → Except PyError (Bool × Option String)
  /-- Filesystem effect of the `Unarchive` delegation. -/
  unarchiveFs : String → String → FileSystem → FileSystem

structure GetUrlOutcome where
  result : Except PyError (Bool × Option String)
  state : FileSystem
  calls : List NetCall

/-- Model of `GetUrl.any` (src/plugins/GetUrl.py lines 49-75): validate
`['url','dest']`; if the destination file exists and `overwrite` is absent or
falsy, return `(False, 'The specified file already exists: <dest>')` without
touching the network or the filesystem; otherwise resolve the URL through
`_get_link_from_page` when `link_pattern` is given, delegate to `Unarchive`
for `.tgz`/`.tar.gz` URLs, and else download the URL into the destination
file and return `(True, None)`. -/
def GetUrl.any (params? : Option Params) (env : GetUrlEnv) (fs : FileSystem) : GetUrlOutcome :=
  match Plugin.validate_params params? ["url", "dest"] "get_url" with
  | .error e => ⟨.error (.katana e), fs, []⟩
  | .ok _ =>
    match params? with
    | none => ⟨.error (.typeError "NoneType has no attribute get"), fs, []⟩
    | some params =>
      match getStr (params.lookup "dest") with
      | .error e => ⟨.error e, fs, []⟩
      | .ok dest =>
        if fs.containsPath dest &&
            !((params.lookup "overwrite").getD (.bool false)).truthy then
          ⟨.ok (false, some ("The specified file already exists: " ++ dest)), fs, []⟩
        else
          match getStr (params.lookup "url") with
          | .error e => ⟨.error e, fs, []⟩
          | .ok url0 =>
            let resolved : Except PyError (String × List NetCall) :=
              match params.lookup "link_pattern" with
              | none => .ok (url0, [])
              | some lp =>
                match getStr (some lp) with
                | .error e => .error e
                | .ok pat =>
                  match env.linkFromPage url0 pat with
                  | .error ke => .error (.katana ke)
                  | .ok u => .ok (u, [NetCall.fetchPage url0 pat])
            match resolved with
            | .error e => ⟨.error e, fs, []⟩
            | .ok (url, fetchCalls) =>
              if url.endsWith ".tgz" || url.endsWith ".tar.gz" then
                ⟨env.unarchiveResult url dest, env.unarchiveFs url dest fs,
                  fetchCalls ++ [NetCall.unarchive url dest]⟩
              else
                ⟨.ok (true, none), FileSystem.write fs dest (env.body url),
                  fetchCalls ++ [NetCall.download url, NetCall.writeDest dest]⟩

/-! ## DesktopIntegration plugin (src/plugins/DesktopIntegration.py)

The ambient desktop environment (display variables, desktop shell, GIO
availability) and the subprocess collaborators (`xdg-desktop-menu`,
`gsettings`) are modelled as an environment record of query results; the
observable mutable state is the filesystem plus the GNOME favourites list.
Debug `print`s are not observable state and are not modelled. -/

/-- Python's `needle in hay` on strings: `needle` occurs as a contiguous
substring of `hay`. -/
def strContainsAux (needle : List Char) : List Char → Bool
  | [] => needle.isPrefixOf ([] : List Char)
  | c :: rest => needle.isPrefixOf (c :: rest) || strContainsAux needle rest

def strContains (hay needle : String) : Bool :=
  strContainsAux needle.data hay.data

structure DesktopEnv where
  /-- Result of `_is_supported_environment()`. -/
  supported : Bool
  /-- Result of `_is_gnome()`. -/
  gnome : Bool
  /-- The module-level `HAVE_GIO` flag. -/
  haveGio : Bool
  /-- Whether `xdg-desktop-menu install/uninstall` succeeds (raises
  `SubprocessError` otherwise). -/
  xdgMenuOk : Bool
  /-- Whether the `gsettings` get/set calls succeed. -/
  gsettingsOk : Bool
  /-- `str(e)` of the exception when `gsettings` fails. -/
  gsettingsErrMsg : String
  /-- Whether `os.geteuid() == 0`. -/
  runAsRoot : Bool
  /-- The instance's `apps_dir` (derived from the real user's home in
  `__init__`). -/
  appsDir : String

structure DesktopState where
  fs : FileSystem
  favorites : List String
deriving DecidableEq, Repr

inductive DeskCall where
  | runAsUser (cmd : String)
  | writeText (path : String)
  | chmod (path : String)
  | chown (path : String)
  | unlink (path : String)
  | xdgMenuInstall (path : String)
  | xdgMenuUninstall (path : String)
  | updateDesktopDatabase
  | gsettingsGet
  | gsettingsSet (favs : List String)
deriving DecidableEq, Repr

structure DesktopOutcome where
  result : Except PyError (Bool × Option String)
  state : DesktopState
  calls : List DeskCall

/-- Model of `DesktopIntegration._validate_desktop_file`
(src/plugins/DesktopIntegration.py lines 106-112): each of `Type=`, `Name=`,
`Exec=` must occur in the content. -/
def DesktopIntegration.validate_desktop_file (content : String) : Bool × Option String :=
  let required_fields := ["Type", "Name", "Exec"]
  let missing := required_fields.filter (fun field => !strContains content (field ++ "="))
  if !missing.isEmpty then
    (false, some ("Missing required fields: " ++ String.intercalate ", " missing))
  else (true, none)

/-- Model of `DesktopIntegration._add_to_gnome_favorites`
(src/plugins/DesktopIntegration.py lines 114-137). -/
def DesktopIntegration.add_to_gnome_favorites (env : DesktopEnv) (st : DesktopState)
    (desktop_id : String) : (Bool × Option String) × DesktopState × List DeskCall :=
  if !env.haveGio || !env.gnome then
    ((false, some "GNOME integration not available"), st, [])
  else if !env.gsettingsOk then
    ((false, some ("Failed to add to favorites: " ++ env.gsettingsErrMsg)), st,
      [DeskCall.gsettingsGet])
  else if st.favorites.contains desktop_id then
    ((false, some "Already in favorites"), st, [DeskCall.gsettingsGet])
  else
    let favs := st.favorites ++ [desktop_id]
    ((true, some "Added to GNOME favorites"), { st with favorites := favs },
      [DeskCall.gsettingsGet, DeskCall.gsettingsSet favs])

/-- Model of `DesktopIntegration.install` (src/plugins/DesktopIntegration.py lines
139-228): validate `['desktop_file']`; bail out `(False, message)` when the
environment is unsupported, when the `desktop_file` value is falsy, when its
`content` or `filename` entries are missing/falsy, or when the content fails
`_validate_desktop_file`; otherwise normalise the filename to a `.desktop`
suffix, write the file only when its content differs from what is on disk,
register it with `xdg-desktop-menu` (falling back to a desktop-database
update), optionally add it to the GNOME favourites, and return the
accumulated `(changed, '; '.join(messages))`. -/
def DesktopIntegration.install (params? : Option Params) (env : DesktopEnv)
    (st : DesktopState) : DesktopOutcome :=
  match Plugin.validate_params params? ["desktop_file"] "desktop" with
  | .error e => ⟨.error (.katana e), st, []⟩
  | .ok _ =>
    match params? with
    | none => ⟨.error (.typeError "NoneType has no attribute get"), st, []⟩
    | some params =>
      if !env.supported then
        ⟨.ok (false, some "Not a supported desktop environment"), st,
          [DeskCall.runAsUser "env | grep -E \"DISPLAY|WAYLAND|DESKTOP\""]⟩
      else
        let desktop_file := (params.lookup "desktop_file").getD (.dict [])
        if !desktop_file.truthy then
          ⟨.ok (false, some "No desktop file configuration provided"), st, []⟩
        else
          match desktop_file with
          | .dict df =>
            let contentV := (Params.lookup df "content").getD (.str "")
            let filenameV? := Params.lookup df "filename"
            let add_to_favorites :=
              ((Params.lookup df "add_to_favorites").getD (.bool false)).truthy
            if !contentV.truthy || !((filenameV?.map Value.truthy).getD false) then
              ⟨.ok (false, some "Missing required desktop file content or filename"), st, []⟩
            else
              match contentV with
              | .str content =>
                let valid := DesktopIntegration.validate_desktop_file content
                if !valid.1 then
                  ⟨.ok (false, some ("Invalid desktop file: " ++ (valid.2.getD ""))), st, []⟩
                else
                  match filenameV? with
                  | some (.str filename0) =>
                  let filename :=
                    if filename0.endsWith ".desktop" then filename0
                    else filename0 ++ ".desktop"
                  let desktop_path := env.appsDir ++ "/" ++ filename
                  let changed0 :=
                    match st.fs.read desktop_path with
                    | some old_content => old_content != content
                    | none => true
                  let msgs0 :=
                    if changed0 then ([] : List String) else ["Desktop file unchanged"]
                  let st1 :=
                    if changed0 then { st with fs := st.fs.write desktop_path content }
                    else st
                  let calls1 :=
                    if changed0 then
                      [DeskCall.writeText desktop_path, DeskCall.chmod desktop_path] ++
                        (if env.runAsRoot then [DeskCall.chown desktop_path] else [])
                    else []
                  let msgs1 :=
                    msgs0 ++ (if changed0 then ["Desktop file created/updated"] else [])
                  let menuStep :=
                    if env.xdgMenuOk then
                      (true, ["Registered with desktop menu"],
                        [DeskCall.xdgMenuInstall desktop_path])
                    else
                      (changed0, ["Updated desktop database"],
                        [DeskCall.xdgMenuInstall desktop_path, DeskCall.updateDesktopDatabase])
                  let favStep :=
                    if add_to_favorites then
                      let r := DesktopIntegration.add_to_gnome_favorites env st1 filename
                      ((menuStep.1 || r.1.1),
                        (match r.1.2 with | some m => [m] | none => []), r.2.1, r.2.2)
                    else (menuStep.1, ([] : List String), st1, ([] : List DeskCall))
                  ⟨.ok (favStep.1,
                      some (String.intercalate "; " (msgs1 ++ menuStep.2.1 ++ favStep.2.1))),
                    favStep.2.2.1,
                    calls1 ++ menuStep.2.2 ++ favStep.2.2.2⟩
                  | _ => ⟨.error (.typeError "filename must be a string"), st, []⟩
              | _ => ⟨.error (.typeError "argument not iterable"), st, []⟩
          | _ => ⟨.error (.typeError "NoneType has no attribute get"), st, []⟩

/-- Model of `DesktopIntegration.remove` (src/plugins/DesktopIntegration.py lines
230-284): validate `['filename']`; bail out `(False, message)` when the
environment is unsupported or the filename is falsy; otherwise normalise the
filename, unregister through `xdg-desktop-menu` (falling back to unlinking
the file and updating the desktop database), remove the entry from the GNOME
favourites when applicable, and return the accumulated result. -/
def DesktopIntegration.remove (params? : Option Params) (env : DesktopEnv)
    (st : DesktopState) : DesktopOutcome :=
  match Plugin.validate_params params? ["filename"] "desktop" with
  | .error e => ⟨.error (.katana e), st, []⟩
  | .ok _ =>
    match params? with
    | none => ⟨.error (.typeError "NoneType has no attribute get"), st, []⟩
    | some params =>
      if !env.supported then
        ⟨.ok (false, some "Not a supported desktop environment"), st, []⟩
      else
        let filenameV := (params.lookup "filename").getD (.str "")
        if !filenameV.truthy then
          ⟨.ok (false, some "No filename provided"), st, []⟩
        else
          match filenameV with
          | .str filename0 =>
            let filename :=
              if filename0.endsWith ".desktop" then filename0
              else filename0 ++ ".desktop"
            let desktop_path := env.appsDir ++ "/" ++ filename
            let menuStep :=
              if env.xdgMenuOk then
                (true, ["Unregistered from desktop menu"], st,
                  [DeskCall.xdgMenuUninstall desktop_path])
              else
                let existed := st.fs.containsPath desktop_path
                (existed,
                  (if existed then ["Removed desktop file"] else []) ++
                    ["Updated desktop database"],
                  (if existed then
                    { st with fs := ⟨st.fs.files.filter (fun f => f.1 != desktop_path)⟩ }
                  else st),
                  [DeskCall.xdgMenuUninstall desktop_path] ++
                    (if existed then [DeskCall.unlink desktop_path] else []) ++
                    [DeskCall.updateDesktopDatabase])
            let favStep :=
              if env.haveGio && env.gnome then
                if !env.gsettingsOk then
                  (menuStep.1,
                    ["Failed to remove from favorites: " ++ env.gsettingsErrMsg],
                    menuStep.2.2.1, [DeskCall.gsettingsGet])
                else if menuStep.2.2.1.favorites.contains filename then
                  let favs := menuStep.2.2.1.favorites.filter (fun f => f != filename)
                  (true, ["Removed from GNOME favorites"],
                    { menuStep.2.2.1 with favorites := favs },
                    [DeskCall.gsettingsGet, DeskCall.gsettingsSet favs])
                else (menuStep.1, [], menuStep.2.2.1, [DeskCall.gsettingsGet])
              else (menuStep.1, [], menuStep.2.2.1, [])
            let msgs := menuStep.2.1 ++ favStep.2.1
            ⟨.ok (favStep.1,
                if msgs.isEmpty then none else some (String.intercalate "; " msgs)),
              favStep.2.2.1, menuStep.2.2.2 ++ favStep.2.2.2⟩
          | _ => ⟨.error (.typeError "filename must be a string"), st, []⟩

/-! ## Ordered task execution

`DefaultProvisioner` (with its `_run_task` dispatch loop) is not under src/;
only its subclass `DockerProvisioner` and the per-task `self._run_task(task,
action)` call sites are.  The run semantics below is modelled from the spec
(sections 4.3 and 8): tasks run one at a time in declared order; a task that
raises a fatal error halts the entire run immediately — no later task
executes and the side effects already applied are not rolled back. -/

/-- Outcome of executing one task against external state `σ`. -/
structure TaskResult (σ : Type) where
  result : Except KatanaError (Bool × Option String)
  state : σ

/-- Outcome of a whole lifecycle run: the names of the tasks attempted in
order, the final external state, and the fatal error that halted the run, if
any. -/
structure RunOutcome (σ : Type) where
  executed : List String
  state : σ
  halted : Option KatanaError

/-- Modelled from the spec: the `DefaultProvisioner` dispatch loop (spec
section 4.3) is not under src/.  Each task is a name together with its
execution against the external state; tasks run in declared order, and the
first fatal error halts the run with no rollback. -/
def runTasks {σ : Type} (tasks : List (String × (σ → TaskResult σ))) (s : σ) : RunOutcome σ :=
  match tasks with
  | [] => ⟨[], s, none⟩
  | (n, f) :: rest =>
    let r := f s
    match r.result with
    | .error e => ⟨[n], r.state, some e⟩
    | .ok _ =>
      let out := runTasks rest r.state
      ⟨n :: out.executed, out.state, out.halted⟩

/-- The external state after executing a list of tasks in order, ignoring
their results (used to phrase the state threaded into a later task). -/
def execStates {σ : Type} (tasks : List (String × (σ → TaskResult σ))) (s : σ) : σ :=
  match tasks with
  | [] => s
  | (_, f) :: rest => execStates rest (f s).state

/-- Every task of the list succeeds (returns `.ok`) when run in sequence
from `s`. -/
def allSucceed {σ : Type} : List (String × (σ → TaskResult σ)) → σ → Prop
  | [], _ => True
  | (_, f) :: rest, s => (∃ v, (f s).result = .ok v) ∧ allSucceed rest (f s).state

/-! ## DockerProvisioner (src/provisioners/DockerProvisioner.py)

`katanacore` is not under src/.  Modelled from the spec: the runtime-status
collaborator exposes `query(name) → {not-installed|stopped|running}`,
`install(name)` and `start(name)` (spec section 6); installing makes the
runtime present (stopped) and starting drives it to `running` (spec section
4.4, "drive the runtime to readiness").  The source compares the status
against the literal strings `'not installed'` and `'running'`. -/

structure CoreState where
  dockerStatus : String
deriving DecidableEq, Repr

inductive CoreCall where
  | statusModule (name : String)
  | installModule (name : String)
  | startModule (name : String)
deriving DecidableEq, Repr

/-- Modelled from the spec: `katanacore.install_module` makes the runtime
present but not yet running. -/
def katanacore.install_module (c : CoreState) : CoreState :=
  { c with dockerStatus := "stopped" }

/-- Modelled from the spec: `katanacore.start_module` drives the runtime to
`running`. -/
def katanacore.start_module (c : CoreState) : CoreState :=
  { c with dockerStatus := "running" }

/-- Whether a core-collaborator call mutates runtime state (the status query
does not). -/
def CoreCall.mutating : CoreCall → Bool
  | .statusModule _ => false
  | _ => true

/-- The module descriptor fields `DockerProvisioner.install` reads
(spec section 6; the descriptor is produced by configuration loading). -/
structure ModuleInfo where
  name : String
  sourceGitRepo : String
  destination : String
  containerName : String
  /-- `container.image`; when absent the source falls back to the container
  name. -/
  containerImage : Option String
  /-- `container.ports`: list of `{guest, host}` records; a missing `host`
  defaults to 80. -/
  containerPorts : List (Nat × Option Nat)
  hostingDomain : String
  hostingListen : String
  hostingProxyPass : String

/-- A task as built by the provisioner: display name, operation key and
parameters. -/
structure PTask where
  name : String
  op : String
  params : Params

/-- The runtime pre-condition checks at the top of
`DockerProvisioner.install` (src/provisioners/DockerProvisioner.py lines
14-18): install the docker runtime only when its status is `'not
installed'`, then start it only when its status is not `'running'`. -/
def DockerProvisioner.preInstallChecks (c : CoreState) : CoreState × List CoreCall :=
  let step1 : CoreState × List CoreCall :=
    if c.dockerStatus == "not installed" then
      (katanacore.install_module c, [CoreCall.statusModule "docker", CoreCall.installModule "docker"])
    else (c, [CoreCall.statusModule "docker"])
  let step2 : CoreState × List CoreCall :=
    if step1.1.dockerStatus != "running" then
      (katanacore.start_module step1.1,
        [CoreCall.statusModule "docker", CoreCall.startModule "docker"])
    else (step1.1, [CoreCall.statusModule "docker"])
  (step2.1, step1.2 ++ step2.2)

/-- The ports mapping built by `DockerProvisioner.install`
(src/provisioners/DockerProvisioner.py lines 20-22):
`{'<guest>/tcp': int(port.get('host', 80))}`. -/
def DockerProvisioner.installPorts (m : ModuleInfo) : List (String × Value) :=
  m.containerPorts.map (fun port =>
    (toString port.1 ++ "/tcp", Value.int (port.2.getD 80)))

/-- The nginx reverse-proxy config content built by
`DockerProvisioner.install` (src/provisioners/DockerProvisioner.py lines
53-59). -/
def DockerProvisioner.nginxConf (m : ModuleInfo) : String :=
  "server \x7b\n" ++
  "  listen " ++ m.hostingListen ++ ";\n" ++
  "  server_name " ++ m.hostingDomain ++ ";\n" ++
  "  location / \x7b\n" ++
  "    proxy_pass " ++ m.hostingProxyPass ++ ";\n" ++
  "  \x7d\n" ++
  "\x7d"

/-- The ordered task list built by `DockerProvisioner.install`
(src/provisioners/DockerProvisioner.py lines 24-70): fetch the source with
`git`, provision the container with `docker`, add the hosts-file line with
`lineinfile`, write the nginx config with `copy`, restart nginx with
`service`. -/
def DockerProvisioner.installTasks (m : ModuleInfo) : List PTask :=
  [ { name := "Get latest release of " ++ m.name,
      op := "git",
      params := [("repo", .str m.sourceGitRepo), ("dest", .str m.destination)] },
    { name := "Install the docker image",
      op := "docker",
      params := [("name", .str m.containerName),
                 ("image", .str (m.containerImage.getD m.containerName)),
                 ("path", .str m.destination),
                 ("ports", .dict (DockerProvisioner.installPorts m))] },
    { name := "Setup hosts file entry",
      op := "lineinfile",
      params := [("dest", .str "/etc/hosts"),
                 ("line", .str ("127.0.0.1   " ++ m.hostingDomain))] },
    { name := "Setup nginx reverse-proxy config",
      op := "copy",
      params := [("dest", .str ("/etc/nginx/conf.d/" ++ m.name ++ ".conf")),
                 ("content", .str (DockerProvisioner.nginxConf m)),
                 ("mode", .int 774)] },
    { name := "Restart nginx",
      op := "service",
      params := [("name", .str "nginx"), ("state", .str "restarted")] } ]

/-- Model of `DockerProvisioner.install` (src/provisioners/DockerProvisioner.py lines
14-73): run the runtime pre-condition checks, then dispatch each task of the
ordered list with `self._run_task(task, "install")`, in list order.  The
value is the runtime state after the checks, the collaborator calls made by
the checks, and the `(task, action)` dispatches in order. -/
def DockerProvisioner.install (m : ModuleInfo) (c : CoreState) :
    CoreState × List CoreCall × List (PTask × String) :=
  let pre := DockerProvisioner.preInstallChecks c
  (pre.1, pre.2, (DockerProvisioner.installTasks m).map (fun t => (t, "install")))

/-! ## Lemmas about parameter validation -/

/-- Whether a key counts as present for `_validate_params`: the mapping is
not `None` and contains the key. -/
def paramPresent (params? : Option Params) (key : String) : Bool :=
  match params? with
  | none => false
  | some p => p.hasKey key

/-- Whenever some required key is absent, `_validate_params` raises
`MissingRequiredParam` for a (first) missing required key. -/
theorem validate_params_fails (params? : Option Params) (R : List String) (pname : String)
    (h : ∃ k ∈ R, paramPresent params? k = false) :
    ∃ k₀ ∈ R, paramPresent params? k₀ = false ∧
      Plugin.validate_params params? R pname
        = .error (.missingRequiredParam k₀ pname) := by
  induction R with
  | nil => simp at h
  | cons key rest ih =>
    match params? with
    | none => exact ⟨key, by simp, rfl, rfl⟩
    | some p =>
      by_cases hk : p.hasKey key
      · obtain ⟨k, hkmem, hkabs⟩ := h
        have hkrest : k ∈ rest := by
          rcases List.mem_cons.mp hkmem with h1 | h1
          · subst h1; simp [paramPresent, hk] at hkabs
          · exact h1
        obtain ⟨k₀, h1, h2, h3⟩ := ih ⟨k, hkrest, hkabs⟩
        exact ⟨k₀, List.mem_cons_of_mem _ h1, h2, by
          simp only [Plugin.validate_params, hk, if_true]; exact h3⟩
      · exact ⟨key, by simp, by simp [paramPresent, hk],
          by simp [Plugin.validate_params, hk]⟩

/-- When validation succeeds, every required key is present. -/
theorem validate_params_ok_of_present (params? : Option Params) (R : List String)
    (pname : String) (h : ∀ k ∈ R, paramPresent params? k = true) :
    Plugin.validate_params params? R pname = .ok () := by
  induction R with
  | nil => rfl
  | cons key rest ih =>
    have hkey := h key (by simp)
    match params? with
    | none => simp [paramPresent] at hkey
    | some p =>
      simp only [paramPresent] at hkey
      simp only [Plugin.validate_params, hkey, if_true]
      exact ih (fun k hk => h k (List.mem_cons_of_mem _ hk))

/-- Claim C9: calling `_validate_params` with `params = None` and a non-empty
required list raises `MissingRequiredParam` naming the first required key and
the plugin — the `params is None` disjunct short-circuits the key lookup, so
no `None` dereference happens. -/
theorem validate_params_none_raises_first_key (k : String) (rest : List String)
    (plugin_name : String) :
    Plugin.validate_params none (k :: rest) plugin_name
      = .error (.missingRequiredParam k plugin_name) := rfl

/-- Claim C1: for every modelled plugin lifecycle method, a parameters mapping
that lacks a required parameter makes the invocation raise
`MissingRequiredParam` naming a missing key and the plugin, with the
external state unchanged and an empty call trace — so before any external
call or mutating action. -/
theorem missing_required_param_raised_first :
    (∀ params? s, (∃ k ∈ ["name", "image"], paramPresent params? k = false) →
      ∃ k₀ ∈ ["name", "image"], paramPresent params? k₀ = false ∧
        Docker.install params? s
          = ⟨.error (.katana (.missingRequiredParam k₀ "docker")), s, []⟩)
  ∧ (∀ params? s, (∃ k ∈ ["name"], paramPresent params? k = false) →
      ∃ k₀ ∈ ["name"], paramPresent params? k₀ = false ∧
        Docker.remove params? s
          = ⟨.error (.katana (.missingRequiredParam k₀ "docker")), s, []⟩)
  ∧ (∀ params? s, (∃ k ∈ ["name"], paramPresent params? k = false) →
      ∃ k₀ ∈ ["name"], paramPresent params? k₀ = false ∧
        Docker.start params? s
          = ⟨.error (.katana (.missingRequiredParam k₀ "docker")), s, []⟩)
  ∧ (∀ params? s, (∃ k ∈ ["name"], paramPresent params? k = false) →
      ∃ k₀ ∈ ["name"], paramPresent params? k₀ = false ∧
        Docker.stop params? s
          = ⟨.error (.katana (.missingRequiredParam k₀ "docker")), s, []⟩)
  ∧ (∀ params? fs, (∃ k ∈ ["hostname", "proxy_pass"], paramPresent params? k = false) →
      ∃ k₀ ∈ ["hostname", "proxy_pass"], paramPresent params? k₀ = false ∧
        ReverseProxy.install params? fs
          = ⟨.error (.katana (.missingRequiredParam k₀ "reverseproxy")), fs, []⟩)
  ∧ (∀ params? env fs, (∃ k ∈ ["url", "dest"], paramPresent params? k = false) →
      ∃ k₀ ∈ ["url", "dest"], paramPresent params? k₀ = false ∧
        GetUrl.any params? env fs
          = ⟨.error (.katana (.missingRequiredParam k₀ "get_url")), fs, []⟩)
  ∧ (∀ params? env st, (∃ k ∈ ["desktop_file"], paramPresent params? k = false) →
      ∃ k₀ ∈ ["desktop_file"], paramPresent params? k₀ = false ∧
        DesktopIntegration.install params? env st
          = ⟨.error (.katana (.missingRequiredParam k₀ "desktop")), st, []⟩)
  ∧ (∀ params? env st, (∃ k ∈ ["filename"], paramPresent params? k = false) →
      ∃ k₀ ∈ ["filename"], paramPresent params? k₀ = false ∧
        DesktopIntegration.remove params? env st
          = ⟨.error (.katana (.missingRequiredParam k₀ "desktop")), st, []⟩) := by
  refine ⟨?_, ?_, ?_, ?_, ?_, ?_, ?_, ?_⟩
  · intro params? s h
    obtain ⟨k₀, hmem, habs, heq⟩ := validate_params_fails params? _ "docker" h
    exact ⟨k₀, hmem, habs, by simp [Docker.install, heq]⟩
  · intro params? s h
    obtain ⟨k₀, hmem, habs, heq⟩ := validate_params_fails params? _ "docker" h
    exact ⟨k₀, hmem, habs, by simp [Docker.remove, heq]⟩
  · intro params? s h
    obtain ⟨k₀, hmem, habs, heq⟩ := validate_params_fails params? _ "docker" h
    exact ⟨k₀, hmem, habs, by simp [Docker.start, heq]⟩
  · intro params? s h
    obtain ⟨k₀, hmem, habs, heq⟩ := validate_params_fails params? _ "docker" h
    exact ⟨k₀, hmem, habs, by simp [Docker.stop, heq]⟩
  · intro params? fs h
    obtain ⟨k₀, hmem, habs, heq⟩ := validate_params_fails params? _ "reverseproxy" h
    exact ⟨k₀, hmem, habs, by simp [ReverseProxy.install, heq]⟩
  · intro params? env fs h
    obtain ⟨k₀, hmem, habs, heq⟩ := validate_params_fails params? _ "get_url" h
    exact ⟨k₀, hmem, habs, by simp [GetUrl.any, heq]⟩
  · intro params? env st h
    obtain ⟨k₀, hmem, habs, heq⟩ := validate_params_fails params? _ "desktop" h
    exact ⟨k₀, hmem, habs, by simp [DesktopIntegration.install, heq]⟩
  · intro params? env st h
    obtain ⟨k₀, hmem, habs, heq⟩ := validate_params_fails params? _ "desktop" h
    exact ⟨k₀, hmem, habs, by simp [DesktopIntegration.remove, heq]⟩

/-- Closed witness for the missing-parameter theorem: `Docker.install`
invoked without the `image` parameter. -/
theorem missing_required_param_raised_first_witness :
    ∃ k₀ ∈ ["name", "image"], paramPresent (some [("name", Value.str "x")]) k₀ = false ∧
      Docker.install (some [("name", Value.str "x")]) ⟨[], []⟩
        = ⟨.error (.katana (.missingRequiredParam k₀ "docker")), ⟨[], []⟩, []⟩ :=
  missing_required_param_raised_first.1 (some [("name", Value.str "x")]) ⟨[], []⟩
    ⟨"image", by simp, by simp [paramPresent, Params.hasKey, Params.lookup]⟩

/-- Claim C2: when a task raises a fatal error, the run executes exactly the
preceding tasks and the fatal task, never any later task, and the final
state is the fatal task's outcome state on top of the prefix's side effects
— nothing is rolled back. -/
theorem fatal_error_halts_run {σ : Type} (pre : List (String × (σ → TaskResult σ)))
    (bn : String) (bf : σ → TaskResult σ) (post : List (String × (σ → TaskResult σ)))
    (s : σ) (e : KatanaError)
    (hpre : allSucceed pre s)
    (hb : (bf (execStates pre s)).result = .error e) :
    runTasks (pre ++ (bn, bf) :: post) s
      = ⟨pre.map Prod.fst ++ [bn], (bf (execStates pre s)).state, some e⟩ := by
  induction pre generalizing s with
  | nil =>
    simp only [List.nil_append, runTasks]
    simp only [execStates] at hb
    rw [hb]
    rfl
  | cons a pre ih =>
    obtain ⟨⟨v, hv⟩, hrest⟩ := hpre
    simp only [execStates] at hb
    simp only [List.cons_append, runTasks]
    rw [hv]
    simp only [List.append_eq]
    rw [ih (a.2 s).state hrest hb]
    rfl

/-- Closed witness for the fatal-halt theorem: `[A, B(fatal), C]` over a
counter state — `A` runs and its increment stays applied, `B` raises, `C`
never runs. -/
theorem fatal_error_halts_run_witness :
    runTasks
      [ ("A", fun n => TaskResult.mk (σ := Nat) (.ok (true, none)) (n + 1)),
        ("B", fun n => TaskResult.mk (σ := Nat)
          (.error (.criticalFunctionFailure "docker" "Cannot remove a running container.")) n),
        ("C", fun n => TaskResult.mk (σ := Nat) (.ok (true, none)) (n + 100)) ] 0
      = ⟨["A", "B"], 1,
          some (.criticalFunctionFailure "docker" "Cannot remove a running container.")⟩ :=
  fatal_error_halts_run
    [("A", fun n => TaskResult.mk (σ := Nat) (.ok (true, none)) (n + 1))] "B"
    (fun n => TaskResult.mk (σ := Nat)
      (.error (.criticalFunctionFailure "docker" "Cannot remove a running container.")) n)
    [("C", fun n => TaskResult.mk (σ := Nat) (.ok (true, none)) (n + 100))]
    0 (.criticalFunctionFailure "docker" "Cannot remove a running container.")
    ⟨⟨(true, none), rfl⟩, trivial⟩ rfl

/-- A key that is looked up successfully is present. -/
theorem hasKey_of_lookup (p : Params) (k : String) (v : Value)
    (h : p.lookup k = some v) : p.hasKey k = true := by
  simp [Params.hasKey, h]

/-- Claim C3: `Docker.remove` on a running container raises
`CriticalFunctionFailure` with the plugin name `docker` and a message, the
daemon state is unchanged, and the only daemon call made is the read-only
container listing — no removal is attempted. -/
theorem docker_remove_running_raises_critical (params : Params) (s : DockerState)
    (name : String) (c : Container) (rest : List Container)
    (hname : params.lookup "name" = some (.str name))
    (hfilter : s.containers.filter (fun x => x.name == name) = c :: rest)
    (hrun : c.status = "running") :
    Docker.remove (some params) s
      = ⟨.error (.katana (.criticalFunctionFailure "docker"
          "Cannot remove a running container.")), s, [DockerCall.listContainers name]⟩
    ∧ (Docker.remove (some params) s).calls.all (fun call => !call.mutating) = true := by
  have hkey : Plugin.validate_params (some params) ["name"] "docker" = .ok () := by
    refine validate_params_ok_of_present _ _ _ ?_
    intro k hk
    simp only [List.mem_singleton] at hk
    subst hk
    simp [paramPresent, hasKey_of_lookup params "name" _ hname]
  have hmain : Docker.remove (some params) s
      = ⟨.error (.katana (.criticalFunctionFailure "docker"
          "Cannot remove a running container.")), s, [DockerCall.listContainers name]⟩ := by
    simp [Docker.remove, hkey, hname, getStr, hfilter, hrun]
  exact ⟨hmain, by rw [hmain]; rfl⟩

/-- Closed witness for the remove-running theorem. -/
theorem docker_remove_running_raises_critical_witness :
    Docker.remove (some [("name", Value.str "demo-app")])
        ⟨[⟨"demo-app", "running"⟩], ["demo:latest"]⟩
      = ⟨.error (.katana (.criticalFunctionFailure "docker"
          "Cannot remove a running container.")),
          ⟨[⟨"demo-app", "running"⟩], ["demo:latest"]⟩,
          [DockerCall.listContainers "demo-app"]⟩ :=
  (docker_remove_running_raises_critical [("name", Value.str "demo-app")]
    ⟨[⟨"demo-app", "running"⟩], ["demo:latest"]⟩ "demo-app"
    ⟨"demo-app", "running"⟩ [] rfl rfl rfl).1

/-- Claim C6: each Docker operation invoked when the resource is already in
(or beyond) the target state is a no-op: `(False, message)`, daemon state
unchanged, only the read-only container listing performed.  Install with an
existing container, remove with no container, start on a running container,
stop on a container that is not running. -/
theorem docker_state_machine_noops :
    (∀ params s name (imgv : Value) (pd : List (String × Value)) c rest,
      params.lookup "name" = some (.str name) →
      params.lookup "image" = some imgv →
      params.lookup "ports" = some (.dict pd) →
      s.containers.filter (fun x => x.name == name) = c :: rest →
      Docker.install (some params) s
        = ⟨.ok (false, some ("A container named '" ++ name ++ "' is already installed.")),
            s, [DockerCall.listContainers name]⟩)
  ∧ (∀ params s name,
      params.lookup "name" = some (.str name) →
      s.containers.filter (fun x => x.name == name) = [] →
      Docker.remove (some params) s
        = ⟨.ok (false, some ("No container named '" ++ name ++
            "' was found. It will need to be installed before you can remove it.")),
            s, [DockerCall.listContainers name]⟩)
  ∧ (∀ params s name c rest,
      params.lookup "name" = some (.str name) →
      s.containers.filter (fun x => x.name == name) = c :: rest →
      c.status = "running" →
      Docker.start (some params) s
        = ⟨.ok (false, some ("The '" ++ name ++ "' container is already running.")),
            s, [DockerCall.listContainers name]⟩)
  ∧ (∀ params s name c rest,
      params.lookup "name" = some (.str name) →
      s.containers.filter (fun x => x.name == name) = c :: rest →
      c.status ≠ "running" →
      Docker.stop (some params) s
        = ⟨.ok (false, some ("The '" ++ name ++ "' container is not running.")),
            s, [DockerCall.listContainers name]⟩) := by
  refine ⟨?_, ?_, ?_, ?_⟩
  · intro params s name imgv pd c rest hname himg hports hfilter
    have hkey : Plugin.validate_params (some params) ["name", "image"] "docker" = .ok () := by
      refine validate_params_ok_of_present _ _ _ ?_
      intro k hk
      simp only [List.mem_cons, List.mem_singleton, List.not_mem_nil, or_false] at hk
      rcases hk with hk | hk
      · subst hk; simp [paramPresent, hasKey_of_lookup params "name" _ hname]
      · subst hk; simp [paramPresent, hasKey_of_lookup params "image" _ himg]
    simp [Docker.install, hkey, hname, getStr, hports, getDict, hfilter]
  · intro params s name hname hfilter
    have hkey : Plugin.validate_params (some params) ["name"] "docker" = .ok () := by
      refine validate_params_ok_of_present _ _ _ ?_
      intro k hk
      simp only [List.mem_singleton] at hk
      subst hk
      simp [paramPresent, hasKey_of_lookup params "name" _ hname]
    simp [Docker.remove, hkey, hname, getStr, hfilter]
  · intro params s name c rest hname hfilter hrun
    have hkey : Plugin.validate_params (some params) ["name"] "docker" = .ok () := by
      refine validate_params_ok_of_present _ _ _ ?_
      intro k hk
      simp only [List.mem_singleton] at hk
      subst hk
      simp [paramPresent, hasKey_of_lookup params "name" _ hname]
    simp [Docker.start, hkey, hname, getStr, hfilter, hrun]
  · intro params s name c rest hname hfilter hrun
    have hkey : Plugin.validate_params (some params) ["name"] "docker" = .ok () := by
      refine validate_params_ok_of_present _ _ _ ?_
      intro k hk
      simp only [List.mem_singleton] at hk
      subst hk
      simp [paramPresent, hasKey_of_lookup params "name" _ hname]
    simp [Docker.stop, hkey, hname, getStr, hfilter, hrun]

/-- Closed witness for the state-machine no-op theorem: all four operations
at concrete states. -/
theorem docker_state_machine_noops_witness :
    Docker.install (some [("name", Value.str "a"), ("image", Value.str "i"),
        ("ports", Value.dict [])]) ⟨[⟨"a", "running"⟩], []⟩
      = ⟨.ok (false, some "A container named 'a' is already installed."),
          ⟨[⟨"a", "running"⟩], []⟩, [DockerCall.listContainers "a"]⟩
  ∧ Docker.remove (some [("name", Value.str "a")]) ⟨[], []⟩
      = ⟨.ok (false, some ("No container named 'a' was found. " ++
          "It will need to be installed before you can remove it.")),
          ⟨[], []⟩, [DockerCall.listContainers "a"]⟩
  ∧ Docker.start (some [("name", Value.str "a")]) ⟨[⟨"a", "running"⟩], []⟩
      = ⟨.ok (false, some "The 'a' container is already running."),
          ⟨[⟨"a", "running"⟩], []⟩, [DockerCall.listContainers "a"]⟩
  ∧ Docker.stop (some [("name", Value.str "a")]) ⟨[⟨"a", "exited"⟩], []⟩
      = ⟨.ok (false, some "The 'a' container is not running."),
          ⟨[⟨"a", "exited"⟩], []⟩, [DockerCall.listContainers "a"]⟩ :=
  ⟨docker_state_machine_noops.1 _ _ "a" _ [] ⟨"a", "running"⟩ [] rfl rfl rfl rfl,
   docker_state_machine_noops.2.1 _ _ "a" rfl rfl,
   docker_state_machine_noops.2.2.1 _ _ "a" ⟨"a", "running"⟩ [] rfl rfl rfl,
   docker_state_machine_noops.2.2.2 _ _ "a" ⟨"a", "exited"⟩ [] rfl rfl (by decide)⟩

/-- Claim C4 (counterexample to universal install idempotence): when the image
is already available locally and no container with the given name exists,
`Docker.install` reports `changed=true` on the first run, leaves the daemon
state untouched (the container-creation branch is skipped, lines 26-40 of
src/plugins/Docker.py), and so reports `changed=true` again on the second
run with identical parameters — not `changed=false` as the idempotence
contract requires. -/
theorem docker_install_repeat_reports_changed_again :
    (Docker.install (some [("name", Value.str "demo-app"), ("image", Value.str "demo:latest"),
        ("ports", Value.dict [])]) ⟨[], ["demo:latest"]⟩).result = .ok (true, none)
  ∧ (Docker.install (some [("name", Value.str "demo-app"), ("image", Value.str "demo:latest"),
        ("ports", Value.dict [])])
      ((Docker.install (some [("name", Value.str "demo-app"), ("image", Value.str "demo:latest"),
        ("ports", Value.dict [])]) ⟨[], ["demo:latest"]⟩).state)).result = .ok (true, none)
  ∧ (Docker.install (some [("name", Value.str "demo-app"), ("image", Value.str "demo:latest"),
        ("ports", Value.dict [])]) ⟨[], ["demo:latest"]⟩).state = ⟨[], ["demo:latest"]⟩ :=
  ⟨rfl, rfl, rfl⟩

/-- Claim C5 (counterexample to the changed-flag contract): with the image
already local and no matching container, `Docker.install` makes no mutating
daemon call and leaves the daemon state exactly as it was, yet reports
`changed=true`. -/
theorem docker_install_changed_true_without_mutation :
    (Docker.install (some [("name", Value.str "juice-shop"),
        ("image", Value.str "bkimminich/juice-shop"), ("ports", Value.dict [])])
        ⟨[], ["bkimminich/juice-shop"]⟩).result = .ok (true, none)
  ∧ (Docker.install (some [("name", Value.str "juice-shop"),
        ("image", Value.str "bkimminich/juice-shop"), ("ports", Value.dict [])])
        ⟨[], ["bkimminich/juice-shop"]⟩).state = ⟨[], ["bkimminich/juice-shop"]⟩
  ∧ (Docker.install (some [("name", Value.str "juice-shop"),
        ("image", Value.str "bkimminich/juice-shop"), ("ports", Value.dict [])])
        ⟨[], ["bkimminich/juice-shop"]⟩).calls.all (fun c => !c.mutating) = true :=
  ⟨rfl, rfl, rfl⟩

/-- Claim C7: `DockerProvisioner.install` runs the runtime pre-condition
checks first — installing the docker runtime exactly when its status is
`not installed`, starting it exactly when it is not `running`, and making no
mutating collaborator call when it is already running — and then dispatches
exactly the ordered task list git → docker → lineinfile → copy → service,
each with the `install` action, in declared order. -/
theorem docker_provisioner_install_order (m : ModuleInfo) (c : CoreState) :
    ((DockerProvisioner.install m c).2.2).map (fun d => d.1.op)
        = ["git", "docker", "lineinfile", "copy", "service"]
  ∧ ((DockerProvisioner.install m c).2.2).map (fun d => d.2)
        = ["install", "install", "install", "install", "install"]
  ∧ (c.dockerStatus = "running" →
      (DockerProvisioner.install m c).1 = c
      ∧ ((DockerProvisioner.install m c).2.1).all (fun call => !call.mutating) = true)
  ∧ ((CoreCall.installModule "docker" ∈ (DockerProvisioner.install m c).2.1)
      ↔ c.dockerStatus = "not installed")
  ∧ (c.dockerStatus ≠ "running" →
      CoreCall.startModule "docker" ∈ (DockerProvisioner.install m c).2.1) := by
  refine ⟨rfl, rfl, ?_, ?_, ?_⟩
  · intro h
    constructor
    · simp [DockerProvisioner.install, DockerProvisioner.preInstallChecks, h]
    · simp [DockerProvisioner.install, DockerProvisioner.preInstallChecks, h,
        CoreCall.mutating]
  · by_cases h1 : c.dockerStatus = "not installed"
    · simp [DockerProvisioner.install, DockerProvisioner.preInstallChecks, h1,
        katanacore.install_module, katanacore.start_module]
    · have e1 : (c.dockerStatus == "not installed") = false := by
        rw [beq_eq_false_iff_ne]; exact h1
      by_cases h2 : c.dockerStatus = "running"
      · simp [DockerProvisioner.install, DockerProvisioner.preInstallChecks, e1, h2, h1]
      · have e2 : (c.dockerStatus == "running") = false := by
          rw [beq_eq_false_iff_ne]; exact h2
        simp [DockerProvisioner.install, DockerProvisioner.preInstallChecks, e1, e2, h1, h2,
          katanacore.start_module]
  · intro h2
    have e2 : (c.dockerStatus == "running") = false := by
      rw [beq_eq_false_iff_ne]; exact h2
    by_cases h1 : c.dockerStatus = "not installed"
    · simp [DockerProvisioner.install, DockerProvisioner.preInstallChecks, h1,
        katanacore.install_module, katanacore.start_module]
    · have e1 : (c.dockerStatus == "not installed") = false := by
        rw [beq_eq_false_iff_ne]; exact h1
      simp [DockerProvisioner.install, DockerProvisioner.preInstallChecks, e1, e2, h2,
        katanacore.start_module]

/-- Closed witness for the provisioner-order theorem: a concrete module
descriptor with the docker runtime already running. -/
theorem docker_provisioner_install_order_witness :
    ((DockerProvisioner.install
        ⟨"demo", "https://example.org/demo.git", "/opt/demo", "demo-app", some "demo:latest",
          [(80, some 8080)], "demo.local", "80", "http://127.0.0.1:8080"⟩
        ⟨"running"⟩).2.2).map (fun d => d.1.op)
      = ["git", "docker", "lineinfile", "copy", "service"]
  ∧ (DockerProvisioner.install
        ⟨"demo", "https://example.org/demo.git", "/opt/demo", "demo-app", some "demo:latest",
          [(80, some 8080)], "demo.local", "80", "http://127.0.0.1:8080"⟩
        ⟨"running"⟩).1 = ⟨"running"⟩ :=
  ⟨(docker_provisioner_install_order
      ⟨"demo", "https://example.org/demo.git", "/opt/demo", "demo-app", some "demo:latest",
        [(80, some 8080)], "demo.local", "80", "http://127.0.0.1:8080"⟩ ⟨"running"⟩).1,
   ((docker_provisioner_install_order
      ⟨"demo", "https://example.org/demo.git", "/opt/demo", "demo-app", some "demo:latest",
        [(80, some 8080)], "demo.local", "80", "http://127.0.0.1:8080"⟩ ⟨"running"⟩).2.2.1
      rfl).1⟩

/-- Claim C8: `GetUrl.any` with an existing destination file and `overwrite`
absent or `False` returns `(False, explanatory message)` without raising,
makes no network call, and leaves the filesystem unchanged. -/
theorem geturl_existing_dest_is_noop (params : Params) (env : GetUrlEnv)
    (fs : FileSystem) (dest : String)
    (hurl : params.hasKey "url" = true)
    (hdest : params.lookup "dest" = some (.str dest))
    (hexists : fs.containsPath dest = true)
    (hover : params.lookup "overwrite" = none
      ∨ params.lookup "overwrite" = some (.bool false)) :
    GetUrl.any (some params) env fs
      = ⟨.ok (false, some ("The specified file already exists: " ++ dest)), fs, []⟩ := by
  have hkey : Plugin.validate_params (some params) ["url", "dest"] "get_url" = .ok () := by
    refine validate_params_ok_of_present _ _ _ ?_
    intro k hk
    simp only [List.mem_cons, List.mem_singleton, List.not_mem_nil, or_false] at hk
    rcases hk with hk | hk
    · subst hk; simpa [paramPresent] using hurl
    · subst hk; simp [paramPresent, hasKey_of_lookup params "dest" _ hdest]
  rcases hover with hov | hov <;>
    simp [GetUrl.any, hkey, hdest, getStr, hexists, hov, Value.truthy]

/-- Closed witness for the existing-destination theorem. -/
theorem geturl_existing_dest_is_noop_witness :
    GetUrl.any
      (some [("url", Value.str "https://example.org/f.zip"), ("dest", Value.str "/tmp/f.zip")])
      ⟨fun _ _ => .ok "", fun _ => "", fun _ _ => .ok (true, none), fun _ _ f => f⟩
      ⟨[("/tmp/f.zip", "old")]⟩
      = ⟨.ok (false, some "The specified file already exists: /tmp/f.zip"),
          ⟨[("/tmp/f.zip", "old")]⟩, []⟩ :=
  geturl_existing_dest_is_noop _ _ _ "/tmp/f.zip" rfl rfl rfl (Or.inl rfl)

/-- Model of `_validate_desktop_file` rejects content missing any required field. -/
theorem validate_desktop_file_fails (content : String) (field : String)
    (hf : field ∈ ["Type", "Name", "Exec"])
    (h : strContains content (field ++ "=") = false) :
    ∃ m, DesktopIntegration.validate_desktop_file content = (false, some m) := by
  unfold DesktopIntegration.validate_desktop_file
  have hmem : field ∈ ["Type", "Name", "Exec"].filter
      (fun f => !strContains content (f ++ "=")) :=
    List.mem_filter.mpr ⟨hf, by simp [h]⟩
  have hne : (["Type", "Name", "Exec"].filter
      (fun f => !strContains content (f ++ "="))).isEmpty = false := by
    cases hfl : ["Type", "Name", "Exec"].filter (fun f => !strContains content (f ++ "=")) with
    | nil => rw [hfl] at hmem; cases hmem
    | cons a l => rfl
  simp [hne]

/-- Claim C10: `DesktopIntegration.install` returns `(False, message)` and
leaves the state (in particular the filesystem) untouched whenever the
environment is not a supported desktop environment, the desktop-file mapping
lacks `content` or `filename`, or the content lacks one of the `Type=`,
`Name=`, `Exec=` fields; it never reports `changed=true` in these cases. -/
theorem desktop_install_rejects_invalid (params : Params) (env : DesktopEnv)
    (st : DesktopState) (df : List (String × Value))
    (hdf : params.lookup "desktop_file" = some (.dict df))
    (hcond : env.supported = false
      ∨ Params.lookup df "content" = none
      ∨ Params.lookup df "filename" = none
      ∨ ∃ content, Params.lookup df "content" = some (.str content)
          ∧ (strContains content "Type=" = false ∨ strContains content "Name=" = false
              ∨ strContains content "Exec=" = false)) :
    ∃ msg, (DesktopIntegration.install (some params) env st).result = .ok (false, some msg)
      ∧ (DesktopIntegration.install (some params) env st).state = st := by
  have hkey : Plugin.validate_params (some params) ["desktop_file"] "desktop" = .ok () := by
    refine validate_params_ok_of_present _ _ _ ?_
    intro k hk
    simp only [List.mem_singleton] at hk
    subst hk
    simp [paramPresent, hasKey_of_lookup params "desktop_file" _ hdf]
  by_cases hsup : env.supported = false
  · exact ⟨"Not a supported desktop environment",
      by simp [DesktopIntegration.install, hkey, hsup],
      by simp [DesktopIntegration.install, hkey, hsup]⟩
  · have hsupT : env.supported = true := by
      revert hsup; cases env.supported <;> simp
    by_cases hdfT : (Value.dict df).truthy = false
    · exact ⟨"No desktop file configuration provided",
        by simp [DesktopIntegration.install, hkey, hsupT, hdf, hdfT],
        by simp [DesktopIntegration.install, hkey, hsupT, hdf, hdfT]⟩
    · have hdfTT : (Value.dict df).truthy = true := by
        revert hdfT; cases (Value.dict df).truthy <;> simp
      by_cases hct : ((Params.lookup df "content").getD (.str "")).truthy = false
      · exact ⟨"Missing required desktop file content or filename",
          by simp [DesktopIntegration.install, hkey, hsupT, hdf, hdfTT, hct],
          by simp [DesktopIntegration.install, hkey, hsupT, hdf, hdfTT, hct]⟩
      · have hctT : ((Params.lookup df "content").getD (.str "")).truthy = true := by
          revert hct; cases ((Params.lookup df "content").getD (.str "")).truthy <;> simp
        by_cases hfn : ((Params.lookup df "filename").map Value.truthy).getD false = false
        · exact ⟨"Missing required desktop file content or filename",
            by simp [DesktopIntegration.install, hkey, hsupT, hdf, hdfTT, hctT, hfn],
            by simp [DesktopIntegration.install, hkey, hsupT, hdf, hdfTT, hctT, hfn]⟩
        · have hfnT : ((Params.lookup df "filename").map Value.truthy).getD false = true := by
            revert hfn
            cases ((Params.lookup df "filename").map Value.truthy).getD false <;> simp
          obtain ⟨content, hcnt, hmiss⟩ :
              ∃ content, Params.lookup df "content" = some (.str content)
                ∧ (strContains content "Type=" = false ∨ strContains content "Name=" = false
                    ∨ strContains content "Exec=" = false) := by
            rcases hcond with h | h | h | h
            · exact absurd h (by simp [hsupT])
            · rw [h] at hctT; exact absurd hctT (by decide)
            · rw [h] at hfnT; simp at hfnT
            · exact h
          have hval : ∃ m, DesktopIntegration.validate_desktop_file content
              = (false, some m) := by
            rcases hmiss with h | h | h
            · exact validate_desktop_file_fails content "Type" (by simp) h
            · exact validate_desktop_file_fails content "Name" (by simp) h
            · exact validate_desktop_file_fails content "Exec" (by simp) h
          obtain ⟨m, hm⟩ := hval
          have hcT : (Value.str content).truthy = true := by
            rw [hcnt] at hctT; exact hctT
          exact ⟨"Invalid desktop file: " ++ m,
            by simp [DesktopIntegration.install, hkey, hsupT, hdf, hdfTT, hctT, hfnT,
              hcnt, hm, hcT],
            by simp [DesktopIntegration.install, hkey, hsupT, hdf, hdfTT, hctT, hfnT,
              hcnt, hm, hcT]⟩

/-- Closed witness for the desktop-install rejection theorem: content
lacking the `Exec=` field. -/
theorem desktop_install_rejects_invalid_witness :
    ∃ msg, (DesktopIntegration.install
        (some [("desktop_file", Value.dict
          [("content", Value.str "[Desktop Entry]\nType=Application\nName=Demo"),
           ("filename", Value.str "demo.desktop")])])
        ⟨true, false, false, true, true, "", false, "/home/samurai/.local/share/applications"⟩
        ⟨⟨[]⟩, []⟩).result = .ok (false, some msg)
    ∧ (DesktopIntegration.install
        (some [("desktop_file", Value.dict
          [("content", Value.str "[Desktop Entry]\nType=Application\nName=Demo"),
           ("filename", Value.str "demo.desktop")])])
        ⟨true, false, false, true, true, "", false, "/home/samurai/.local/share/applications"⟩
        ⟨⟨[]⟩, []⟩).state = ⟨⟨[]⟩, []⟩ :=
  desktop_install_rejects_invalid _ _ _
    [("content", Value.str "[Desktop Entry]\nType=Application\nName=Demo"),
     ("filename", Value.str "demo.desktop")] rfl
    (Or.inr (Or.inr (Or.inr ⟨"[Desktop Entry]\nType=Application\nName=Demo", rfl,
      Or.inr (Or.inr (by decide))⟩)))
